import Mathlib

/-!
Verification of the JSON-RPC 2.0 engine in `pyk/json-rpc-rs`.

This file shallowly embeds the message data model and classifier of
`src/types.rs`, the internal error enum of `src/error.rs`, and the
message-processing entry point `JsonRpc::call` of `src/jsonrpc.rs`.
JSON values are modelled by the inductive `Json` (mirroring
`serde_json::Value`, with numbers as integers, which covers every value
the claims touch); JSON text parsing (`serde_json::from_str`) is the
external collaborator, so `JsonRpc.call` receives `Option Json`
(`none` models an input string that is not syntactically valid JSON),
and returns the emitted response as `Option Json` (`none` models "no
output string"; serialization of the values produced here never fails
in the source).
-/

namespace JsonRpcRs

/-- Model of `serde_json::Value`. Numbers are modelled as integers
(every number appearing in the verified behavior is integral). -/
inductive Json where
  | null
  | bool (b : Bool)
  | num (n : Int)
  | str (s : String)
  | arr (elems : List Json)
  | obj (fields : List (String × Json))
deriving Repr

def Json.isNull : Json → Bool
  | .null => true
  | _ => false

/-- First-match field lookup on an object, `none` on any other value:
model of `serde_json::Value::get(key)` (objects are assumed key-unique,
as `serde_json`'s map type guarantees). -/
def lookupField : List (String × Json) → String → Option Json
  | [], _ => none
  | (k, v) :: rest, key => if k = key then some v else lookupField rest key

def Json.lookup : Json → String → Option Json
  | .obj fields, key => lookupField fields key
  | _, _ => none

def Json.asString : Json → Option String
  | .str s => some s
  | _ => none

/-- `RequestId` from `src/types.rs`: untagged union of null, `u64`
number and string. -/
inductive RequestId where
  | null
  | number (n : Nat)
  | string (s : String)
deriving DecidableEq, Repr

/-- Untagged `serde` deserialization of `RequestId`: JSON null, a
non-negative integral number, or a string; anything else fails.
This is also the inline `id` coercion in `JsonRpc::call`
(`Number(n) => n.as_u64().map(RequestId::Number)`). -/
def requestIdFromJson : Json → Option RequestId
  | .null => some .null
  | .num n => if 0 ≤ n then some (.number n.toNat) else none
  | .str s => some (.string s)
  | _ => none

def RequestId.toJson : RequestId → Json
  | .null => .null
  | .number n => .num n
  | .string s => .str s

/-- `Request` from `src/types.rs`. -/
structure Request where
  jsonrpc : String
  id : RequestId
  method : String
  params : Option Json
deriving Repr

/-- `Notification` from `src/types.rs`. -/
structure Notification where
  jsonrpc : String
  method : String
  params : Option Json
deriving Repr

/-- The wire-level `Error` object from `src/types.rs`. -/
structure Error where
  code : Int
  message : String
  data : Option Json
deriving Repr

def Error.new (code : Int) (message : String) (data : Option Json) : Error :=
  ⟨code, message, data⟩

def Error.parse_error (message : String) : Error := Error.new (-32700) message none

def Error.invalid_request (message : String) : Error := Error.new (-32600) message none

def Error.method_not_found (message : String) : Error := Error.new (-32601) message none

def Error.invalid_params (message : String) : Error := Error.new (-32602) message none

def Error.internal_error (message : String) : Error := Error.new (-32603) message none

/-- `Response` from `src/types.rs`: plain struct with optional
`result` and `error` fields. -/
structure Response where
  jsonrpc : String
  result : Option Json
  error : Option Error
  id : RequestId
deriving Repr

/-- `Response::success`. -/
def Response.success (id : RequestId) (result : Json) : Response :=
  ⟨"2.0", some result, none, id⟩

/-- `Response::error` (named `mkError` here because `error` is the
field projection). -/
def Response.mkError (id : RequestId) (error : Error) : Response :=
  ⟨"2.0", none, some error, id⟩

/-- `Response::validate`: post-hoc mutual-exclusivity check. -/
def Response.validate (r : Response) : Except String Unit :=
  match r.result, r.error with
  | some _, some _ => .error "Response cannot have both result and error"
  | none, none => .error "Response must have either result or error"
  | _, _ => .ok ()

/-- The internal error enum from `src/error.rs` (imported in
`types.rs` as `InternalError`); `io::Error` and `serde_json::Error`
payloads are modelled by their display strings. -/
inductive InternalError where
  | protocolError (msg : String)
  | rpcError (code : Int) (message : String)
  | transportError (msg : String)
  | parseError (msg : String)
  | invalidRequest (msg : String)
  | cancelled
deriving Repr

/-- The `thiserror` `Display` implementation of `error::Error`
(`e.to_string()`). -/
def InternalError.toString : InternalError → String
  | .protocolError msg => "Protocol error: " ++ msg
  | .rpcError code message =>
      "JSON-RPC error: code=" ++ ToString.toString code ++ ", message=" ++ message
  | .transportError msg => "Transport error: " ++ msg
  | .parseError msg => "Protocol error: " ++ msg
  | .invalidRequest msg => "Invalid Request: " ++ msg
  | .cancelled => "Operation was cancelled"

/-- `serde` deserialization of an `Option<serde_json::Value>` struct
field: a missing field or a JSON `null` gives `None`, any other value
gives `Some`. -/
def optValueField (j : Json) (key : String) : Option Json :=
  match j.lookup key with
  | none => none
  | some v => if v.isNull then none else some v

/-- `serde` deserialization of `Request` (derived `Deserialize`):
requires `jsonrpc` string, `id` coercible to `RequestId`, `method`
string; `params` optional; unknown fields ignored. -/
def Request.fromJson (j : Json) : Option Request :=
  match j with
  | .obj _ =>
    match (j.lookup "jsonrpc").bind Json.asString,
          (j.lookup "id").bind requestIdFromJson,
          (j.lookup "method").bind Json.asString with
    | some ver, some id, some m => some ⟨ver, id, m, optValueField j "params"⟩
    | _, _, _ => none
  | _ => none

/-- `serde` deserialization of `Notification`. -/
def Notification.fromJson (j : Json) : Option Notification :=
  match j with
  | .obj _ =>
    match (j.lookup "jsonrpc").bind Json.asString,
          (j.lookup "method").bind Json.asString with
    | some ver, some m => some ⟨ver, m, optValueField j "params"⟩
    | _, _ => none
  | _ => none

/-- `serde` deserialization of the wire `Error` object: `code` must be
an integer fitting `i32`, `message` a string, `data` optional. -/
def Error.fromJson (j : Json) : Option Error :=
  match j with
  | .obj _ =>
    match j.lookup "code", (j.lookup "message").bind Json.asString with
    | some (.num c), some m =>
        if -2147483648 ≤ c ∧ c ≤ 2147483647 then some ⟨c, m, optValueField j "data"⟩
        else none
    | _, _ => none
  | _ => none

/-- `serde` deserialization of `Response`: `error` is
`Option<Error>` (missing or null gives `None`; an invalid error
object fails the whole response). -/
def Response.fromJson (j : Json) : Option Response :=
  match j with
  | .obj _ =>
    match (j.lookup "jsonrpc").bind Json.asString,
          (j.lookup "id").bind requestIdFromJson with
    | some ver, some id =>
      match j.lookup "error" with
      | none => some ⟨ver, optValueField j "result", none, id⟩
      | some ej =>
        if ej.isNull then some ⟨ver, optValueField j "result", none, id⟩
        else
          match Error.fromJson ej with
          | some e => some ⟨ver, optValueField j "result", some e, id⟩
          | none => none
    | _, _ => none
  | _ => none

/-- `serde` serialization of `Request` (fields in declaration order,
`params` skipped when `None`). -/
def Request.toJson (r : Request) : Json :=
  .obj ([("jsonrpc", .str r.jsonrpc), ("id", r.id.toJson), ("method", .str r.method)] ++
    (match r.params with | none => [] | some p => [("params", p)]))

/-- `serde` serialization of `Notification`. -/
def Notification.toJson (n : Notification) : Json :=
  .obj ([("jsonrpc", .str n.jsonrpc), ("method", .str n.method)] ++
    (match n.params with | none => [] | some p => [("params", p)]))

/-- `serde` serialization of the wire `Error` object. -/
def Error.toJson (e : Error) : Json :=
  .obj ([("code", .num e.code), ("message", .str e.message)] ++
    (match e.data with | none => [] | some d => [("data", d)]))

/-- `serde` serialization of `Response` (fields in declaration order,
`result`/`error` skipped when `None`). -/
def Response.toJson (r : Response) : Json :=
  .obj ([("jsonrpc", .str r.jsonrpc)] ++
    (match r.result with | none => [] | some v => [("result", v)]) ++
    (match r.error with | none => [] | some e => [("error", e.toJson)]) ++
    [("id", r.id.toJson)])

/-- `Message` from `src/types.rs`. -/
inductive Message where
  | request (req : Request)
  | response (res : Response)
  | notification (notif : Notification)
  | batch (messages : List Message)
deriving Repr

def Message.is_request : Message → Bool
  | .request _ => true
  | _ => false

def Message.is_response : Message → Bool
  | .response _ => true
  | _ => false

def Message.is_notification : Message → Bool
  | .notification _ => true
  | _ => false

def Message.is_batch : Message → Bool
  | .batch _ => true
  | _ => false

/-- `Message::from_json_internal` (`src/types.rs`): classify one
non-batch JSON value. Branch order: `id` presence first, then `error`,
then `method`; requests and notifications additionally require
`jsonrpc == "2.0"`. The error is always `InvalidRequest`. -/
def Message.from_json_internal (value : Json) : Except InternalError Message :=
  if (value.lookup "id").isSome then
    if (value.lookup "error").isSome then
      match Response.fromJson value with
      | some res => .ok (.response res)
      | none => .error (.invalidRequest "Invalid Request")
    else if (value.lookup "method").isSome then
      match Request.fromJson value with
      | some req =>
        if req.jsonrpc = "2.0" then .ok (.request req)
        else .error (.invalidRequest "Invalid Request")
      | none => .error (.invalidRequest "Invalid Request")
    else .error (.invalidRequest "Invalid Request")
  else
    match Notification.fromJson value with
    | some notif =>
      if notif.jsonrpc = "2.0" then .ok (.notification notif)
      else .error (.invalidRequest "Invalid Request")
    | none => .error (.invalidRequest "Invalid Request")

/-- The per-element fallback inside the batch loop of
`Message::from_json`: when an element fails classification, an
extractable `id` (or an unrecognized `id` value) yields an
`InvalidRequest` error response (with the extracted id, or `Null`);
no `id` but a `method` key drops the element; otherwise a `Null`-id
error response. -/
def batchItemFallback (item : Json) : Option Response :=
  match item.lookup "id" with
  | some idv =>
    match requestIdFromJson idv with
    | some id => some (Response.mkError id (Error.invalid_request "Invalid Request"))
    | none => some (Response.mkError .null (Error.invalid_request "Invalid Request"))
  | none =>
    if (item.lookup "method").isSome then none
    else some (Response.mkError .null (Error.invalid_request "Invalid Request"))

/-- `Message::from_json` (`src/types.rs`): arrays are batches (empty
array is `InvalidRequest`; each element is classified independently,
failures going through `batchItemFallback`); the non-array single path
is, as the source comments note, identical to `from_json_internal`. -/
def Message.from_json (value : Json) : Except InternalError Message :=
  match value with
  | .arr items =>
    if items.isEmpty then .error (.invalidRequest "Invalid Request")
    else
      .ok (.batch (items.filterMap fun item =>
        match Message.from_json_internal item with
        | .ok msg => some msg
        | .error _ => (batchItemFallback item).map Message.response))
  | _ => Message.from_json_internal value

/-- `Message::to_json` (`src/types.rs`): serialization (total here;
`serde_json::to_value` cannot fail on these shapes). -/
def Message.to_json : Message → Json
  | .request req => req.toJson
  | .response res => res.toJson
  | .notification notif => notif.toJson
  | .batch messages => .arr (messages.attach.map fun m => Message.to_json m.1)
decreasing_by
  simp only [Message.batch.sizeOf_spec]
  have h := List.sizeOf_lt_of_mem m.2
  omega

/-- A registered handler after type erasure (`BoxedHandler` in
`src/jsonrpc.rs`): untyped JSON params to untyped JSON result or an
internal error. -/
def Handler : Type := Json → Except InternalError Json

/-- The closure built by `JsonRpc::add`: deserialize the params into
the handler's parameter type (a failing `serde_json::from_value`
becomes `InternalError::ParseError` via `?`), run the user handler,
serialize the result. `dec` models the typed deserializer (returning
the serde error message on failure) and `enc` the serializer. -/
def wrapHandler {P R : Type} (dec : Json → Except String P) (enc : R → Json)
    (handler : P → Except InternalError R) : Handler := fun params =>
  match dec params with
  | .error msg => .error (.parseError msg)
  | .ok p =>
    match handler p with
    | .ok r => .ok (enc r)
    | .error e => .error e

/-- `JsonRpc` (`src/jsonrpc.rs`): the method registry. The
`HashMap` is modelled as an association list where insertion prepends,
so lookup finds the most recent registration, as `HashMap::insert`
overwrites. -/
structure JsonRpc where
  handlers : List (String × Handler)

def JsonRpc.new : JsonRpc := ⟨[]⟩

/-- `JsonRpc::add`. -/
def JsonRpc.add {P R : Type} (rpc : JsonRpc) (method : String)
    (dec : Json → Except String P) (enc : R → Json)
    (handler : P → Except InternalError R) : JsonRpc :=
  ⟨(method, wrapHandler dec enc handler) :: rpc.handlers⟩

/-- `JsonRpc::get_handler`. -/
def JsonRpc.get_handler (rpc : JsonRpc) (method : String) : Option Handler :=
  rpc.handlers.lookup method

/-- The handler-failure-to-wire-error mapping in `JsonRpc::call`:
a declared `RpcError` passes its code and message through verbatim;
every other internal error becomes code `-32603` with the error's
display string as message. -/
def errorFromHandlerFailure (e : InternalError) : Error :=
  match e with
  | .rpcError code message => Error.new code message none
  | _ => Error.new (-32603) e.toString none

/-- The per-request processing shared by the `Request` arm and the
batch loop of `JsonRpc::call`: absent params become JSON null, the
handler is looked up (missing method gives `-32601`), and its outcome
becomes a success or error `Response`. -/
def JsonRpc.processRequest (rpc : JsonRpc) (request : Request) : Response :=
  let params := request.params.getD .null
  match rpc.get_handler request.method with
  | some handler =>
    match handler params with
    | .ok result => Response.success request.id result
    | .error e => Response.mkError request.id (errorFromHandlerFailure e)
  | none =>
    Response.mkError request.id
      (Error.method_not_found ("Unknown method: " ++ request.method))

/-- `JsonRpc::call` (`src/jsonrpc.rs`). The input is the result of
`serde_json::from_str` (`none` for a string that is not valid JSON);
the output is the emitted response value (`none` for no output). -/
def JsonRpc.call (rpc : JsonRpc) (input : Option Json) : Option Json :=
  match input with
  | none => some (Response.mkError .null (Error.parse_error "Parse error")).toJson
  | some value =>
    let request_id := (value.lookup "id").bind requestIdFromJson
    match Message.from_json value with
    | .error (.invalidRequest _) =>
      some (Response.mkError (request_id.getD .null)
        (Error.invalid_request "Invalid Request")).toJson
    | .error _ =>
      some (Response.mkError (request_id.getD .null)
        (Error.internal_error "Internal error")).toJson
    | .ok (.request request) => some (rpc.processRequest request).toJson
    | .ok (.notification _) => none
    | .ok (.batch messages) =>
      let responses := messages.filterMap fun m =>
        match m with
        | .request request => some (rpc.processRequest request)
        | .notification _ => none
        | .response response => some response
        | .batch _ =>
          some (Response.mkError .null (Error.invalid_request "Invalid Request"))
      some (.arr (responses.map Response.toJson))
    | .ok (.response _) => none

/-- Expected response slot for one batch element, defined element-wise
so that the order-preservation theorem can relate the emitted array to
the input array position by position. -/
def JsonRpc.batchSlot (rpc : JsonRpc) (item : Json) : Option Response :=
  match Message.from_json_internal item with
  | .ok (.request request) => some (rpc.processRequest request)
  | .ok (.notification _) => none
  | .ok (.response response) => some response
  | .ok (.batch _) =>
    some (Response.mkError .null (Error.invalid_request "Invalid Request"))
  | .error _ => batchItemFallback item

/-- The `echo` handler of the examples and tests: params of type
`serde_json::Value` (deserialization never fails), returned verbatim. -/
def echoRpc : JsonRpc := JsonRpc.new.add "echo" Except.ok (fun r => r) Except.ok

/-- `request_count` in the `Batch` arm of `Server::run`
(`src/server.rs`): the number of `Request`- or `Response`-typed batch
elements. When it is 0 no `BatchContext` is created and nothing is
sent, and a completed batch whose collected responses are empty is
likewise never written. -/
def batchRequestCount (messages : List Message) : Nat :=
  (messages.filter fun m => m.is_request || m.is_response).length

/-- End-to-end scenario 3 input: `[echo "a" id 1, {"bad":"x"}, echo
"b" id 2]`. -/
def c1Input : Json := .arr
  [.obj [("jsonrpc", .str "2.0"), ("method", .str "echo"), ("params", .str "a"), ("id", .num 1)],
   .obj [("bad", .str "x")],
   .obj [("jsonrpc", .str "2.0"), ("method", .str "echo"), ("params", .str "b"), ("id", .num 2)]]

/-- End-to-end scenario 3 expected output: success for id 1, Null-id
`InvalidRequest`, success for id 2, in that order. -/
def c1Output : Json := .arr
  [(Response.success (.number 1) (.str "a")).toJson,
   (Response.mkError .null (Error.invalid_request "Invalid Request")).toJson,
   (Response.success (.number 2) (.str "b")).toJson]

/-- A wire response carrying both `result` and `error`, as
`Message::from_json` accepts inside a batch. -/
def c2BothResponse : Response := ⟨"2.0", some (.num 5), some ⟨1, "m", none⟩, .number 1⟩

/-- A batch whose only element is a response object with both
`result` and `error` present. -/
def c2BothJson : Json := .arr
  [.obj [("jsonrpc", .str "2.0"), ("id", .num 1), ("result", .num 5),
         ("error", .obj [("code", .num 1), ("message", .str "m")])]]

/-- A wire response with neither `result` nor `error`, as
`Message::from_json` produces from an `error: null` response object. -/
def c2NeitherResponse : Response := ⟨"2.0", none, none, .number 1⟩

/-- A batch whose only element is a response object whose `error`
field is JSON null and which has no `result` field. -/
def c2NeitherJson : Json :=
  .arr [.obj [("jsonrpc", .str "2.0"), ("id", .num 1), ("error", .null)]]

/-- An id-less object with a `method` key but an invalid `jsonrpc`
version: a classification-level notification failure. -/
def c3BrokenNotifJson : Json := .obj [("jsonrpc", .str "1.0"), ("method", .str "x")]

/-- End-to-end scenario 4 input: a pure-notification batch. -/
def c4PureNotifBatchJson : Json :=
  .arr [.obj [("jsonrpc", .str "2.0"), ("method", .str "echo"), ("params", .str "x")]]

/-- A batch element with a `method` key whose `id` value is a boolean,
i.e. not a recognized `RequestId` scalar. -/
def c5BoolIdJson : Json :=
  .arr [.obj [("jsonrpc", .str "2.0"), ("id", .bool true), ("method", .str "x")]]

/-- A typed parameter decoder that always fails, modelling a handler
whose parameter deserialization rejects the supplied params. -/
def natRejectDec : Json → Except String Nat := fun _ => .error "invalid type"

/-- A registry whose method `f` has a parameter decoder that fails on
every params value. -/
def c6Rpc : JsonRpc := JsonRpc.new.add "f" natRejectDec (fun n : Nat => Json.num n) Except.ok

/-- A field-complete request object, fields in `serde` serialization
order. -/
def requestFixture (id : RequestId) (method : String) (p : Json) : Json :=
  .obj [("jsonrpc", .str "2.0"), ("id", id.toJson), ("method", .str method), ("params", p)]

/-- A field-complete notification object. -/
def notificationFixture (method : String) (p : Json) : Json :=
  .obj [("jsonrpc", .str "2.0"), ("method", .str method), ("params", p)]

/-- A field-complete response object (all optional fields present),
fields in `serde` serialization order. -/
def responseFixture (id : RequestId) (r : Json) (c : Int) (emsg : String) (d : Json) : Json :=
  .obj [("jsonrpc", .str "2.0"), ("result", r),
        ("error", .obj [("code", .num c), ("message", .str emsg), ("data", d)]),
        ("id", id.toJson)]

/-- A handler that declares an application-level RPC error. -/
def boomHandler : Handler := fun _ => .error (.rpcError (-32000) "boom")

/-- A handler failing with a non-`RpcError` internal error. -/
def cancelledHandler : Handler := fun _ => .error .cancelled

/-- A registry with one declared-error method and one
otherwise-failing method. -/
def c6FailRpc : JsonRpc := ⟨[("g", boomHandler), ("k", cancelledHandler)]⟩

theorem from_json_internal_error_eq (v : Json) (e : InternalError)
    (h : Message.from_json_internal v = .error e) :
    e = .invalidRequest "Invalid Request" := by
  unfold Message.from_json_internal at h
  repeat' split at h
  all_goals simp_all

theorem from_json_error_eq (v : Json) (e : InternalError)
    (h : Message.from_json v = .error e) : e = .invalidRequest "Invalid Request" := by
  unfold Message.from_json at h
  split at h
  · split at h <;> simp_all
  · exact from_json_internal_error_eq _ _ h

theorem from_json_internal_not_batch (v : Json) (ms : List Message) :
    Message.from_json_internal v ≠ .ok (.batch ms) := by
  intro h
  unfold Message.from_json_internal at h
  repeat' split at h
  all_goals simp_all

theorem requestId_round_trip (id : RequestId) : requestIdFromJson id.toJson = some id := by
  cases id with
  | null => rfl
  | number n => simp [RequestId.toJson, requestIdFromJson]
  | string s => rfl

/-- Claim C8: classification edge cases. `classify({})` and
`classify([])` both fail with `InvalidRequest`; `classify([1])`
produces a batch holding one synthesized error response with id
`Null` and code `-32600`. -/
theorem classify_edge_cases :
    Message.from_json (.obj []) = .error (.invalidRequest "Invalid Request") ∧
    Message.from_json (.arr []) = .error (.invalidRequest "Invalid Request") ∧
    Message.from_json (.arr [.num 1]) =
      .ok (.batch [.response (Response.mkError .null (Error.invalid_request "Invalid Request"))]) ∧
    (Error.invalid_request "Invalid Request").code = -32600 :=
  ⟨rfl, rfl, rfl, rfl⟩

/-- Counterexample to claim C2: `Message::from_json` accepts a batch
element that is a response object carrying both `result` and `error`,
producing a `Response` value with both fields present whose
serialization again carries both keys — so the exactly-one invariant
is not enforced at construction time on every path. -/
theorem response_both_fields_counterexample :
    Message.from_json c2BothJson = .ok (.batch [.response c2BothResponse]) ∧
    c2BothResponse.result.isSome = true ∧
    c2BothResponse.error.isSome = true ∧
    (c2BothResponse.toJson.lookup "result").isSome = true ∧
    (c2BothResponse.toJson.lookup "error").isSome = true ∧
    Message.from_json c2NeitherJson = .ok (.batch [.response c2NeitherResponse]) ∧
    c2NeitherResponse.result = none ∧
    c2NeitherResponse.error = none ∧
    c2NeitherResponse.toJson.lookup "result" = none ∧
    c2NeitherResponse.toJson.lookup "error" = none :=
  ⟨rfl, rfl, rfl, rfl, rfl, rfl, rfl, rfl, rfl, rfl⟩

/-- Claim C2 (amended): the dedicated constructors
`Response::success` and `Response::error` do each produce a response
with exactly one of `result`/`error`, and `Response::validate`
decides exactly-one correctly — but the invariant is a constructor
discipline plus a post-hoc check, not a type-level construction-time
guarantee (see the counterexample via deserialization). -/
theorem response_constructors_enforce_exclusivity :
    ∀ (id : RequestId) (v : Json) (e : Error) (r : Response),
      (Response.success id v).result.isSome = true ∧
      (Response.success id v).error.isNone = true ∧
      (Response.mkError id e).result.isNone = true ∧
      (Response.mkError id e).error.isSome = true ∧
      (r.validate = .ok () ↔ r.result.isSome ≠ r.error.isSome) := by
  intro id v e r
  refine ⟨rfl, rfl, rfl, rfl, ?_⟩
  rcases r with ⟨ver, res, err, rid⟩
  cases res <;> cases err <;> simp [Response.validate]

/-- Claim C4: evaluation of the code at the failing input. A
pure-notification batch classifies as a batch of one notification;
`JsonRpc::call` emits the empty array for it (it serializes the empty
response vector unconditionally), while the `Server::run` dispatch
path counts zero response slots and sends nothing. -/
theorem pure_notification_batch_eval :
    echoRpc.call (some c4PureNotifBatchJson) = some (.arr []) ∧
    echoRpc.call (some c4PureNotifBatchJson) ≠ none ∧
    Message.from_json c4PureNotifBatchJson =
      .ok (.batch [.notification ⟨"2.0", "echo", some (.str "x")⟩]) ∧
    batchRequestCount [.notification ⟨"2.0", "echo", some (.str "x")⟩] = 0 := by
  refine ⟨rfl, ?_, rfl, rfl⟩
  intro h
  rw [show echoRpc.call (some c4PureNotifBatchJson) = some (.arr []) from rfl] at h
  exact Option.noConfusion h

/-- Counterexample to claim C5: a batch element with a `method` key
whose `id` value is a boolean is not silently dropped — it consumes a
slot, becoming a `Null`-id `InvalidRequest` error response. -/
theorem unrecognized_id_counterexample :
    Message.from_json c5BoolIdJson =
      .ok (.batch [.response (Response.mkError .null (Error.invalid_request "Invalid Request"))]) ∧
    Message.from_json c5BoolIdJson ≠ .ok (.batch []) := by
  refine ⟨rfl, ?_⟩
  intro h
  rw [show Message.from_json c5BoolIdJson =
        .ok (.batch [.response (Response.mkError .null (Error.invalid_request "Invalid Request"))])
      from rfl] at h
  simp at h

/-- Claim C5 (amended): a batch element that fails classification and
carries an `id` key whose value is not a recognized `RequestId`
scalar is not dropped: it yields an `InvalidRequest` error response
with id `Null` in its place, consuming a response slot. Only elements
with no `id` key at all and a `method` key are silently dropped. -/
theorem batch_element_id_fallback :
    (∀ (item idv : Json) (e : InternalError),
        Message.from_json_internal item = .error e →
        item.lookup "id" = some idv → requestIdFromJson idv = none →
        Message.from_json (.arr [item]) =
          .ok (.batch [.response (Response.mkError .null (Error.invalid_request "Invalid Request"))])) ∧
    (∀ (item : Json) (e : InternalError),
        Message.from_json_internal item = .error e →
        item.lookup "id" = none → (item.lookup "method").isSome = true →
        Message.from_json (.arr [item]) = .ok (.batch [])) := by
  constructor
  · intro item idv e hfail hid hcoerce
    simp [Message.from_json, hfail, batchItemFallback, hid, hcoerce]
  · intro item e hfail hid hmethod
    simp [Message.from_json, hfail, batchItemFallback, hid, hmethod]

theorem batch_element_id_fallback_witness :
    (Message.from_json_internal (.obj [("id", .bool true), ("method", .str "x")]) =
       .error (.invalidRequest "Invalid Request") ∧
     (Json.obj [("id", .bool true), ("method", .str "x")]).lookup "id" = some (.bool true) ∧
     requestIdFromJson (.bool true) = none ∧
     Message.from_json (.arr [.obj [("id", .bool true), ("method", .str "x")]]) =
       .ok (.batch [.response (Response.mkError .null (Error.invalid_request "Invalid Request"))])) ∧
    (Message.from_json_internal (.obj [("method", .num 1)]) =
       .error (.invalidRequest "Invalid Request") ∧
     (Json.obj [("method", .num 1)]).lookup "id" = none ∧
     ((Json.obj [("method", .num 1)]).lookup "method").isSome = true ∧
     Message.from_json (.arr [.obj [("method", .num 1)]]) = .ok (.batch [])) :=
  ⟨⟨rfl, rfl, rfl,
    batch_element_id_fallback.1 (.obj [("id", .bool true), ("method", .str "x")]) (.bool true)
      (.invalidRequest "Invalid Request") rfl rfl rfl⟩,
   ⟨rfl, rfl, rfl,
    batch_element_id_fallback.2 (.obj [("method", .num 1)])
      (.invalidRequest "Invalid Request") rfl rfl rfl⟩⟩

/-- Counterexample to claim C3: a top-level id-less input with a
`method` key but jsonrpc version "1.0" fails classification, and
`JsonRpc::call` does produce an output string for it — the Null-id
`InvalidRequest` error response — contradicting "never produces any
output string". -/
theorem notification_silence_counterexample :
    JsonRpc.new.call (some c3BrokenNotifJson) =
      some (Response.mkError .null (Error.invalid_request "Invalid Request")).toJson ∧
    JsonRpc.new.call (some c3BrokenNotifJson) ≠ none := by
  refine ⟨rfl, ?_⟩
  intro h
  rw [show JsonRpc.new.call (some c3BrokenNotifJson) =
        some (Response.mkError .null (Error.invalid_request "Invalid Request")).toJson
      from rfl] at h
  exact Option.noConfusion h

/-- Claim C3 (amended): an input that classifies as a notification
never produces output, whatever its handler does; inside a batch, an
id-less element with a `method` key that fails classification is
silently dropped (no slot); but a top-level id-less input that fails
classification produces a `Null`-id `InvalidRequest` error response
rather than being discarded. -/
theorem notification_failure_handling :
    (∀ (rpc : JsonRpc) (v : Json) (n : Notification),
        Message.from_json v = .ok (.notification n) → rpc.call (some v) = none) ∧
    (∀ (rpc : JsonRpc) (item : Json) (e : InternalError),
        Message.from_json_internal item = .error e →
        item.lookup "id" = none → (item.lookup "method").isSome = true →
        rpc.batchSlot item = none) ∧
    (∀ (rpc : JsonRpc) (v : Json) (e : InternalError),
        v.lookup "id" = none → Message.from_json v = .error e →
        rpc.call (some v) =
          some (Response.mkError .null (Error.invalid_request "Invalid Request")).toJson) := by
  refine ⟨?_, ?_, ?_⟩
  · intro rpc v n h
    simp [JsonRpc.call, h]
  · intro rpc item e hfail hid hmethod
    simp [JsonRpc.batchSlot, hfail, batchItemFallback, hid, hmethod]
  · intro rpc v e hid hfail
    have he := from_json_error_eq v e hfail
    subst he
    simp [JsonRpc.call, hfail, hid]

theorem notification_failure_handling_witness :
    (Message.from_json (.obj [("jsonrpc", .str "2.0"), ("method", .str "ping")]) =
       .ok (.notification ⟨"2.0", "ping", none⟩) ∧
     echoRpc.call (some (.obj [("jsonrpc", .str "2.0"), ("method", .str "ping")])) = none) ∧
    (Message.from_json_internal (.obj [("method", .num 1)]) =
       .error (.invalidRequest "Invalid Request") ∧
     echoRpc.batchSlot (.obj [("method", .num 1)]) = none) ∧
    ((Json.obj []).lookup "id" = none ∧
     Message.from_json (.obj []) = .error (.invalidRequest "Invalid Request") ∧
     JsonRpc.new.call (some (.obj [])) =
       some (Response.mkError .null (Error.invalid_request "Invalid Request")).toJson) :=
  ⟨⟨rfl, notification_failure_handling.1 echoRpc
      (.obj [("jsonrpc", .str "2.0"), ("method", .str "ping")]) ⟨"2.0", "ping", none⟩ rfl⟩,
   ⟨rfl, notification_failure_handling.2.1 echoRpc (.obj [("method", .num 1)])
      (.invalidRequest "Invalid Request") rfl rfl rfl⟩,
   ⟨rfl, rfl, notification_failure_handling.2.2 JsonRpc.new (.obj [])
      (.invalidRequest "Invalid Request") rfl rfl⟩⟩

/-- Claim C7: a syntactically invalid input (modelled by `none`, the
failing result of the external JSON text parser) yields exactly one
error response with code `-32700` and id `Null`; a well-formed JSON
value of invalid JSON-RPC shape or version yields one error response
with code `-32600` (carrying the extractable id, `Null` when absent);
`call` is a total function, so no exception crosses the boundary. -/
theorem error_taxonomy :
    (∀ rpc : JsonRpc, rpc.call none =
        some (Response.mkError .null (Error.parse_error "Parse error")).toJson) ∧
    (Error.parse_error "Parse error").code = -32700 ∧
    (∀ (rpc : JsonRpc) (v : Json) (e : InternalError),
        Message.from_json v = .error e →
        rpc.call (some v) =
          some (Response.mkError (((v.lookup "id").bind requestIdFromJson).getD .null)
            (Error.invalid_request "Invalid Request")).toJson) ∧
    (Error.invalid_request "Invalid Request").code = -32600 := by
  refine ⟨fun _ => rfl, rfl, ?_, rfl⟩
  intro rpc v e hfail
  have he := from_json_error_eq v e hfail
  subst he
  simp [JsonRpc.call, hfail]

theorem error_taxonomy_witness :
    JsonRpc.new.call none =
      some (Response.mkError .null (Error.parse_error "Parse error")).toJson ∧
    Message.from_json (.obj [("id", .num 3)]) = .error (.invalidRequest "Invalid Request") ∧
    JsonRpc.new.call (some (.obj [("id", .num 3)])) =
      some (Response.mkError (.number 3) (Error.invalid_request "Invalid Request")).toJson :=
  ⟨error_taxonomy.1 JsonRpc.new, rfl,
   error_taxonomy.2.2.1 JsonRpc.new (.obj [("id", .num 3)])
     (.invalidRequest "Invalid Request") rfl⟩

/-- Claim C6: a registered handler whose typed parameter
deserialization fails maps to error code `-32603` (not `-32602`) with
the failure's display string as a descriptive message; a handler
returning a declared `RpcError` passes code and message through
verbatim; any other handler failure also maps to `-32603`; and the
response so built is exactly what `JsonRpc::call` emits for the
request. -/
theorem handler_error_code_mapping :
    (∀ (rpc : JsonRpc) (request : Request) {P R : Type}
        (dec : Json → Except String P) (enc : R → Json)
        (body : P → Except InternalError R) (msg : String),
        rpc.get_handler request.method = some (wrapHandler dec enc body) →
        dec (request.params.getD .null) = .error msg →
        rpc.processRequest request =
          Response.mkError request.id
            (Error.new (-32603) ("Protocol error: " ++ msg) none)) ∧
    (∀ (rpc : JsonRpc) (request : Request) (h : Handler) (code : Int) (message : String),
        rpc.get_handler request.method = some h →
        h (request.params.getD .null) = .error (.rpcError code message) →
        rpc.processRequest request = Response.mkError request.id (Error.new code message none)) ∧
    (∀ (rpc : JsonRpc) (request : Request) (h : Handler) (e : InternalError),
        rpc.get_handler request.method = some h →
        h (request.params.getD .null) = .error e →
        (∀ code message, e ≠ .rpcError code message) →
        rpc.processRequest request =
          Response.mkError request.id (Error.new (-32603) e.toString none)) ∧
    (∀ (rpc : JsonRpc) (v : Json) (request : Request),
        Message.from_json v = .ok (.request request) →
        rpc.call (some v) = some (rpc.processRequest request).toJson) := by
  refine ⟨?_, ?_, ?_, ?_⟩
  · intro rpc request P R dec enc body msg hlook hdec
    simp [JsonRpc.processRequest, hlook, wrapHandler, hdec, errorFromHandlerFailure,
      InternalError.toString]
  · intro rpc request h code message hlook hrun
    simp [JsonRpc.processRequest, hlook, hrun, errorFromHandlerFailure]
  · intro rpc request h e hlook hrun hne
    simp only [JsonRpc.processRequest, hlook, hrun]
    cases e with
    | rpcError code message => exact absurd rfl (hne code message)
    | protocolError msg => rfl
    | transportError msg => rfl
    | parseError msg => rfl
    | invalidRequest msg => rfl
    | cancelled => rfl
  · intro rpc v request h
    simp [JsonRpc.call, h]

theorem handler_error_code_mapping_witness :
    (c6Rpc.get_handler "f" =
       some (wrapHandler natRejectDec (fun n : Nat => Json.num n) Except.ok) ∧
     natRejectDec ((Request.mk "2.0" (.number 1) "f" none).params.getD .null) =
       .error "invalid type" ∧
     c6Rpc.processRequest ⟨"2.0", .number 1, "f", none⟩ =
       Response.mkError (.number 1)
         (Error.new (-32603) ("Protocol error: " ++ "invalid type") none)) ∧
    (echoRpc.get_handler "echo" = some (wrapHandler Except.ok (fun r => r) Except.ok) ∧
     Message.from_json (.obj [("jsonrpc", .str "2.0"), ("method", .str "echo"), ("id", .num 1)]) =
       .ok (.request ⟨"2.0", .number 1, "echo", none⟩) ∧
     echoRpc.call (some (.obj [("jsonrpc", .str "2.0"), ("method", .str "echo"), ("id", .num 1)])) =
       some (echoRpc.processRequest ⟨"2.0", .number 1, "echo", none⟩).toJson) ∧
    (c6FailRpc.get_handler "g" = some boomHandler ∧
     boomHandler ((Request.mk "2.0" .null "g" none).params.getD .null) =
       .error (.rpcError (-32000) "boom") ∧
     c6FailRpc.processRequest ⟨"2.0", .null, "g", none⟩ =
       Response.mkError .null (Error.new (-32000) "boom" none)) ∧
    (c6FailRpc.get_handler "k" = some cancelledHandler ∧
     cancelledHandler ((Request.mk "2.0" .null "k" none).params.getD .null) = .error .cancelled ∧
     c6FailRpc.processRequest ⟨"2.0", .null, "k", none⟩ =
       Response.mkError .null
         (Error.new (-32603) InternalError.cancelled.toString none)) :=
  ⟨⟨rfl, rfl,
    handler_error_code_mapping.1 c6Rpc ⟨"2.0", .number 1, "f", none⟩ natRejectDec
      (fun n : Nat => Json.num n) Except.ok "invalid type" rfl rfl⟩,
   ⟨rfl, rfl,
    handler_error_code_mapping.2.2.2 echoRpc
      (.obj [("jsonrpc", .str "2.0"), ("method", .str "echo"), ("id", .num 1)])
      ⟨"2.0", .number 1, "echo", none⟩ rfl⟩,
   ⟨rfl, rfl,
    handler_error_code_mapping.2.1 c6FailRpc ⟨"2.0", .null, "g", none⟩ boomHandler
      (-32000) "boom" rfl rfl⟩,
   ⟨rfl, rfl,
    handler_error_code_mapping.2.2.1 c6FailRpc ⟨"2.0", .null, "k", none⟩ cancelledHandler
      .cancelled rfl rfl (fun _ _ h => InternalError.noConfusion h)⟩⟩

/-- Claim C1: the emitted batch response array preserves input order —
slot by slot, the output is the in-order `filterMap` of the per-element
expected response over the input array (notifications contribute no
slot); and on the scenario-3 input with an echo handler the output is
exactly [success id 1, Null-id InvalidRequest, success id 2]. -/
theorem batch_preserves_input_order :
    (∀ (rpc : JsonRpc) (items : List Json), items ≠ [] →
        rpc.call (some (.arr items)) =
          some (.arr (items.filterMap fun item => (rpc.batchSlot item).map Response.toJson))) ∧
    echoRpc.call (some c1Input) = some c1Output := by
  constructor
  · intro rpc items hne
    have hempty : items.isEmpty = false := by
      cases items with
      | nil => exact absurd rfl hne
      | cons x xs => rfl
    simp only [JsonRpc.call, Message.from_json, hempty, Bool.false_eq_true, if_false]
    rw [List.filterMap_filterMap, List.map_filterMap]
    refine congrArg (fun l => some (Json.arr l)) (List.filterMap_congr ?_)
    intro item _
    cases hint : Message.from_json_internal item with
    | ok msg => cases msg <;> simp [JsonRpc.batchSlot, hint]
    | error e =>
      cases hfb : batchItemFallback item with
      | none => simp [JsonRpc.batchSlot, hint, hfb]
      | some res => simp [JsonRpc.batchSlot, hint, hfb]
  · rfl

theorem batch_preserves_input_order_witness :
    ([Json.null] ≠ ([] : List Json)) ∧
    echoRpc.call (some (.arr [Json.null])) =
      some (.arr ([Json.null].filterMap fun item =>
        (echoRpc.batchSlot item).map Response.toJson)) :=
  ⟨List.cons_ne_nil _ _,
   batch_preserves_input_order.1 echoRpc [Json.null] (List.cons_ne_nil _ _)⟩

/-- Claim C10: classifier-produced batches are flat — no element of a
`Message::Batch` returned by `Message::from_json` is itself a batch,
so the nested-batch arm of the dispatch loop is unreachable for
classifier-produced messages. -/
theorem classifier_batches_are_flat :
    ∀ (v : Json) (ms : List Message),
      Message.from_json v = .ok (.batch ms) → ∀ m ∈ ms, m.is_batch = false := by
  intro v ms h m hm
  cases v with
  | arr items =>
    unfold Message.from_json at h
    by_cases hempty : items.isEmpty
    · simp [hempty] at h
    · simp only [hempty, Bool.false_eq_true, if_false, Except.ok.injEq, Message.batch.injEq] at h
      subst h
      rcases List.mem_filterMap.mp hm with ⟨item, _, hitem⟩
      cases hint : Message.from_json_internal item with
      | ok msg =>
        rw [hint] at hitem
        have hmm : msg = m := Option.some.inj hitem
        subst hmm
        cases msg with
        | batch l => exact absurd hint (from_json_internal_not_batch item l)
        | request req => rfl
        | response res => rfl
        | notification n => rfl
      | error e =>
        rw [hint] at hitem
        rcases Option.map_eq_some'.mp hitem with ⟨res, _, hres⟩
        subst hres
        rfl
  | null => exact absurd h (by intro hh; exact from_json_internal_not_batch _ ms hh)
  | bool b => exact absurd h (by intro hh; exact from_json_internal_not_batch _ ms hh)
  | num n => exact absurd h (by intro hh; exact from_json_internal_not_batch _ ms hh)
  | str s => exact absurd h (by intro hh; exact from_json_internal_not_batch _ ms hh)
  | obj fields => exact absurd h (by intro hh; exact from_json_internal_not_batch _ ms hh)

theorem classifier_batches_are_flat_witness :
    Message.from_json (.arr [.arr []]) =
      .ok (.batch [.response (Response.mkError .null (Error.invalid_request "Invalid Request"))]) ∧
    (Message.response
      (Response.mkError .null (Error.invalid_request "Invalid Request"))).is_batch = false :=
  ⟨rfl,
   classifier_batches_are_flat (.arr [.arr []])
     [.response (Response.mkError .null (Error.invalid_request "Invalid Request"))] rfl
     (.response (Response.mkError .null (Error.invalid_request "Invalid Request")))
     (List.mem_singleton.mpr rfl)⟩

/-- Claim C9: round trip. For every field-complete request,
notification and response fixture (all fields present, optional ones
with non-null values, the error code within `i32`), classification
succeeds and re-serialization returns the original JSON value. -/
theorem field_complete_round_trip :
    ∀ (id : RequestId) (method emsg : String) (p r d : Json) (c : Int),
      p.isNull = false → r.isNull = false → d.isNull = false →
      -2147483648 ≤ c → c ≤ 2147483647 →
      (Message.from_json (requestFixture id method p) =
         .ok (.request ⟨"2.0", id, method, some p⟩) ∧
       (Message.request ⟨"2.0", id, method, some p⟩).to_json = requestFixture id method p) ∧
      (Message.from_json (notificationFixture method p) =
         .ok (.notification ⟨"2.0", method, some p⟩) ∧
       (Message.notification ⟨"2.0", method, some p⟩).to_json = notificationFixture method p) ∧
      (Message.from_json (responseFixture id r c emsg d) =
         .ok (.response ⟨"2.0", some r, some ⟨c, emsg, some d⟩, id⟩) ∧
       (Message.response ⟨"2.0", some r, some ⟨c, emsg, some d⟩, id⟩).to_json =
         responseFixture id r c emsg d) := by
  intro id method emsg p r d c hp hr hd hc1 hc2
  simp only [Json.isNull] at hp hr hd
  refine ⟨⟨?_, ?_⟩, ⟨?_, ?_⟩, ⟨?_, ?_⟩⟩ <;>
    simp [Message.from_json, Message.from_json_internal, requestFixture, notificationFixture,
      responseFixture, Json.lookup, lookupField, Request.fromJson, Notification.fromJson,
      Response.fromJson, Error.fromJson, optValueField, Json.asString, requestId_round_trip,
      Message.to_json, Request.toJson, Notification.toJson, Response.toJson, Error.toJson,
      hp, hr, hd, hc1, hc2, Json.isNull]

theorem field_complete_round_trip_witness :
    (Json.str "x").isNull = false ∧ (Json.num 1).isNull = false ∧
    (Json.bool true).isNull = false ∧
    (-2147483648 ≤ (-32000 : Int)) ∧ ((-32000 : Int) ≤ 2147483647) ∧
    Message.from_json (requestFixture (.number 7) "m" (.str "x")) =
      .ok (.request ⟨"2.0", .number 7, "m", some (.str "x")⟩) ∧
    (Message.request ⟨"2.0", .number 7, "m", some (.str "x")⟩).to_json =
      requestFixture (.number 7) "m" (.str "x") :=
  ⟨rfl, rfl, rfl, by decide, by decide,
   (field_complete_round_trip (.number 7) "m" "e" (.str "x") (.num 1) (.bool true) (-32000)
     rfl rfl rfl (by decide) (by decide)).1.1,
   (field_complete_round_trip (.number 7) "m" "e" (.str "x") (.num 1) (.bool true) (-32000)
     rfl rfl rfl (by decide) (by decide)).1.2⟩

end JsonRpcRs
